import Mathlib

/-!
Verification of the claude-codemode pipeline: a shallow embedding of the
result-extraction, tool-extraction and program-synthesis code
(`src/claude_codemode/runner.py`, `converter.py`, `template.py`, `types.py`)
together with theorems settling the frozen specification claims.

Conventions of the embedding:
* Python strings are Lean `String`s; machine text operations (`split`,
  `strip`, f-string interpolation) are modelled by their Lean counterparts.
* `json.loads` is modelled by `parseJson` below: a whole-input JSON reader
  that fails (returns `none`, modelling `json.JSONDecodeError`) on trailing
  data, mirroring the "Extra data" behaviour the claims depend on.
  Restrictions kept out of scope (documented, unexercised by any claim):
  numeric literals are read as integers (no floats), and `\u` escapes decode
  the code point directly without surrogate pairing.
* Subprocess launches are modelled by explicit outcome values supplied as
  arguments (`PrimaryOutcome`, `RunOutcome`): the pipeline code is a pure
  function of what the operating system reported.
-/

/-- JSON values as produced by `json.loads`.  Objects keep their bindings in
textual order; duplicate keys are resolved by `lastGet` (last one wins),
matching Python dict construction. -/
inductive Json where
  | null
  | bool (b : Bool)
  | num (n : Int)
  | str (s : String)
  | arr (elems : List Json)
  | obj (fields : List (String × Json))

/-- JSON whitespace accepted by `json.loads` between tokens. -/
def jsonWsChar (c : Char) : Bool :=
  c = ' ' || c = '\t' || c = '\n' || c = '\r'

def skipJsonWs (cs : List Char) : List Char := cs.dropWhile jsonWsChar

/-- Value of a hex digit, for `\uXXXX` escapes. -/
def hexVal (c : Char) : Option Nat :=
  if '0' ≤ c ∧ c ≤ '9' then some (c.toNat - '0'.toNat)
  else if 'a' ≤ c ∧ c ≤ 'f' then some (c.toNat - 'a'.toNat + 10)
  else if 'A' ≤ c ∧ c ≤ 'F' then some (c.toNat - 'A'.toNat + 10)
  else none

/-- Single-character JSON string escapes. -/
def escChar (c : Char) : Option Char :=
  if c = '"' then some '"'
  else if c = '\\' then some '\\'
  else if c = '/' then some '/'
  else if c = 'b' then some '\x08'
  else if c = 'f' then some '\x0c'
  else if c = 'n' then some '\n'
  else if c = 'r' then some '\r'
  else if c = 't' then some '\t'
  else none

/-- Read the body of a JSON string after the opening quote; returns the
decoded characters and the remainder after the closing quote. -/
def parseStrBody : Nat → List Char → Option (List Char × List Char)
  | 0, _ => none
  | _, [] => none
  | Nat.succ fuel, c :: rest =>
    if c = '"' then some ([], rest)
    else if c = '\\' then
      match rest with
      | [] => none
      | e :: rest2 =>
        if e = 'u' then
          match rest2 with
          | h1 :: h2 :: h3 :: h4 :: rest3 =>
            match hexVal h1, hexVal h2, hexVal h3, hexVal h4 with
            | some a, some b, some c2, some d =>
              match parseStrBody fuel rest3 with
              | some (content, rem) =>
                some (Char.ofNat (((a * 16 + b) * 16 + c2) * 16 + d) :: content, rem)
              | none => none
            | _, _, _, _ => none
          | _ => none
        else
          match escChar e with
          | some ec =>
            match parseStrBody fuel rest2 with
            | some (content, rem) => some (ec :: content, rem)
            | none => none
          | none => none
    else if c.toNat < 32 then none
    else
      match parseStrBody fuel rest with
      | some (content, rem) => some (c :: content, rem)
      | none => none

def natFromDigits (ds : List Char) : Nat :=
  ds.foldl (fun a c => a * 10 + (c.toNat - '0'.toNat)) 0

/-- Read an integer numeral (JSON floats are out of modelled scope). -/
def parseIntNum (cs : List Char) : Option (Json × List Char) :=
  match cs with
  | '-' :: rest =>
    let ds := rest.takeWhile Char.isDigit
    let rem := rest.dropWhile Char.isDigit
    if ds.isEmpty then none else some (Json.num (-(Int.ofNat (natFromDigits ds))), rem)
  | _ =>
    let ds := cs.takeWhile Char.isDigit
    let rem := cs.dropWhile Char.isDigit
    if ds.isEmpty then none else some (Json.num (Int.ofNat (natFromDigits ds)), rem)

mutual

/-- Recursive-descent JSON value reader; `fuel` strictly exceeds the input
length at the top-level call, so it never runs out on well-formed input. -/
def parseValue : Nat → List Char → Option (Json × List Char)
  | 0, _ => none
  | Nat.succ fuel, cs =>
    match skipJsonWs cs with
    | [] => none
    | c :: rest =>
      if c = 'n' then
        match rest with
        | 'u' :: 'l' :: 'l' :: rem => some (Json.null, rem)
        | _ => none
      else if c = 't' then
        match rest with
        | 'r' :: 'u' :: 'e' :: rem => some (Json.bool true, rem)
        | _ => none
      else if c = 'f' then
        match rest with
        | 'a' :: 'l' :: 's' :: 'e' :: rem => some (Json.bool false, rem)
        | _ => none
      else if c = '"' then
        match parseStrBody (rest.length + 1) rest with
        | some (content, rem) => some (Json.str (String.mk content), rem)
        | none => none
      else if c = '\x7b' then
        match skipJsonWs rest with
        | '\x7d' :: rem => some (Json.obj [], rem)
        | _ =>
          match parseObjFields fuel rest with
          | some (fs, rem) => some (Json.obj fs, rem)
          | none => none
      else if c = '[' then
        match skipJsonWs rest with
        | ']' :: rem => some (Json.arr [], rem)
        | _ =>
          match parseArrElems fuel rest with
          | some (es, rem) => some (Json.arr es, rem)
          | none => none
      else if c = '-' ∨ c.isDigit then parseIntNum (c :: rest)
      else none

/-- Object members after `\x7b` or a comma: `"key" : value (, ...)* \x7d`. -/
def parseObjFields : Nat → List Char → Option (List (String × Json) × List Char)
  | 0, _ => none
  | Nat.succ fuel, cs =>
    match skipJsonWs cs with
    | '"' :: rest =>
      match parseStrBody (rest.length + 1) rest with
      | some (key, rem) =>
        match skipJsonWs rem with
        | ':' :: rem2 =>
          match parseValue fuel rem2 with
          | some (v, rem3) =>
            match skipJsonWs rem3 with
            | ',' :: rem4 =>
              match parseObjFields fuel rem4 with
              | some (fs, rem5) => some ((String.mk key, v) :: fs, rem5)
              | none => none
            | '\x7d' :: rem4 => some ([(String.mk key, v)], rem4)
            | _ => none
          | none => none
        | _ => none
      | none => none
    | _ => none

/-- Array elements after `[` or a comma. -/
def parseArrElems : Nat → List Char → Option (List Json × List Char)
  | 0, _ => none
  | Nat.succ fuel, cs =>
    match parseValue fuel cs with
    | some (v, rem) =>
      match skipJsonWs rem with
      | ',' :: rem2 =>
        match parseArrElems fuel rem2 with
        | some (es, rem3) => some (v :: es, rem3)
        | none => none
      | ']' :: rem2 => some ([v], rem2)
      | _ => none
    | none => none

end

/-- Model of `json.loads`: parse one JSON value and reject trailing
non-whitespace data (Python raises `JSONDecodeError: Extra data`). -/
def parseJson (s : String) : Option Json :=
  match parseValue (s.length + 1) s.data with
  | some (j, rest) => if (skipJsonWs rest).isEmpty then some j else none
  | none => none

/-- Python truthiness of the value of `dict.get(key)` (with `none` standing
for an absent key, i.e. Python `None`). -/
def truthy : Option Json → Bool
  | none => false
  | some Json.null => false
  | some (Json.bool b) => b
  | some (Json.num n) => n != 0
  | some (Json.str s) => s != ""
  | some (Json.arr l) => !l.isEmpty
  | some (Json.obj l) => !l.isEmpty

/-- `dict.get(k)` on a parsed JSON object: last binding wins, as in the dict
built by `json.loads` when keys repeat.  Non-objects have no keys (the
extraction code only reaches this with brace-delimited matches). -/
def lastGet (j : Json) (k : String) : Option Json :=
  match j with
  | Json.obj fs => ((fs.filter (fun p => p.1 == k)).getLast?).map Prod.snd
  | _ => none

/-- Python-level value of `d.get(k)`: both an absent key and an explicit JSON
`null` value surface as Python `None`. -/
def getPy (j : Json) (k : String) : Option Json :=
  match lastGet j k with
  | some Json.null => none
  | x => x

/-- Python-level value of `d.get(k, default)`: the stored value when the key
is present — including `None` when that value is JSON `null` — and the
default only when the key is absent. -/
def getOrDefault (j : Json) (k : String) (d : String) : Option Json :=
  match lastGet j k with
  | some Json.null => none
  | some v => some v
  | none => some (Json.str d)

/-!
### The result-marker regular expression

`runner.py` scans output with `re.findall(r"CODEMODE_RESULT:\s*({.*})", blob,
re.DOTALL)`.  Operationally (leftmost-match, greedy with backtracking):

* a match must start at an occurrence of the literal `CODEMODE_RESULT:`;
* `\s*` then skips a maximal run of whitespace — every backtracking
  position inside that run is itself whitespace, so the net effect is
  "skip all whitespace, then require a brace";
* `(\x7b.*\x7d)` with DOTALL captures from that opening brace to the LAST
  closing brace anywhere in the remaining input (greedy `.*` backtracks
  from the end of the blob);
* `findall` resumes scanning after the end of each match (non-overlapping),
  and advances one character past a failed attempt.
-/

/-- Characters matched by Python `\s` on `str` input (ASCII part; the claims
exercise no exotic unicode whitespace). -/
def pyWsChar (c : Char) : Bool :=
  c = ' ' || c = '\t' || c = '\n' || c = '\r' || c = '\x0b' || c = '\x0c'

def skipSpaces (cs : List Char) : List Char := cs.dropWhile pyWsChar

def markerChars : List Char := "CODEMODE_RESULT:".data

/-- Split a list at the LAST occurrence of `c`: returns the part strictly
before it and the part strictly after it (which contains no `c`). -/
def splitAtLast (c : Char) : List Char → Option (List Char × List Char)
  | [] => none
  | a :: t =>
    match splitAtLast c t with
    | some (before, after) => some (a :: before, after)
    | none => if a = c then some ([], t) else none

/-- Attempt the part of the pattern after the `CODEMODE_RESULT:` literal:
`\s*` then the greedy `(\x7b.*\x7d)` group.  Returns the captured group and
the remainder of the input after the match. -/
def matchAfterMarker (s : List Char) : Option (List Char × List Char) :=
  match skipSpaces s with
  | [] => none
  | c :: u =>
    if c = '\x7b' then
      match splitAtLast '\x7d' u with
      | some (body, after) => some ('\x7b' :: (body ++ ['\x7d']), after)
      | none => none
    else none

/-- `re.findall` scan: left to right, matches must begin at the marker
literal, non-overlapping, one-character advance past failed attempts.
`fuel` bounds the recursion; every step consumes at least one character, so
`fuel = length` suffices. -/
def findAllAux : Nat → List Char → List (List Char)
  | 0, _ => []
  | _, [] => []
  | Nat.succ fuel, a :: t =>
    if markerChars.isPrefixOf (a :: t) then
      match matchAfterMarker ((a :: t).drop markerChars.length) with
      | some (g, rest) => g :: findAllAux fuel rest
      | none => findAllAux fuel t
    else
      findAllAux fuel t

/-- All captured groups of the result-marker pattern, in scan order. -/
def findAllResults (s : String) : List String :=
  (findAllAux s.data.length s.data).map String.mk

/-!
### The runner pipeline (`runner.py`)
-/

/-- `CodeModeResult` from `types.py`.  `output` and `error` are Python
values originating from parsed JSON; Lean `none` stands for Python `None`
(the dataclass defaults `error` to `None`). -/
structure CodeModeResult where
  output : Option Json
  execution_log : String
  success : Bool
  error : Option Json := none

/-- `CodeModeConfig` from `types.py`, with the source defaults. -/
structure CodeModeConfig where
  workspace_dir : Option String := none
  claude_code_path : String := "claude"
  timeout : Nat := 300
  verbose : Bool := false
  preserve_workspace : Bool := false

/-- Observable outcome of one `subprocess.run` invocation: either the
process completed (exit code and captured streams) or the call raised
(timeout or another exception, carrying the rendered message). -/
inductive RunOutcome where
  | completed (returncode : Int) (stdout stderr : String)
  | raised (msg : String)

/-- Observable outcome of launching the external completion agent in
`execute_with_claude_code`, covering each `except` arm of the source. -/
inductive PrimaryOutcome where
  | completed (returncode : Int) (stdout stderr : String)
  | timedOut
  | notFound
  | otherExc (msg : String)

/-- The timeout message rendered by `execute_with_claude_code`
(`f"Execution timed out after {self.config.timeout} seconds"`). -/
def timeoutMsg (t : Nat) : String :=
  "Execution timed out after " ++ Nat.repr t ++ " seconds"

/-- `ClaudeCodeRunner.execute_with_claude_code` (runner.py:50-106): returns
`(success, stdout, stderr)`; every launch failure is converted to a
`(False, "", message)` triple, never an uncaught exception. -/
def execute_with_claude_code (cfg : CodeModeConfig) (po : PrimaryOutcome) :
    Bool × String × String :=
  match po with
  | PrimaryOutcome.completed rc out err => (rc == 0, out, err)
  | PrimaryOutcome.timedOut => (false, "", timeoutMsg cfg.timeout)
  | PrimaryOutcome.notFound =>
      (false, "",
        "Claude Code not found at: " ++ cfg.claude_code_path ++
        ". Make sure Claude Code is installed and in your PATH.")
  | PrimaryOutcome.otherExc msg => (false, "", "Execution error: " ++ msg)

/-- Modelled diagnostic text of a `json.JSONDecodeError`; the source
interpolates the exception, whose exact rendering is outside the embedding.
No claim depends on the text after the fixed message prefix. -/
def jsonDecodeDetail : String := "<JSONDecodeError>"

/-- `ClaudeCodeRunner._execute_runner_directly` (runner.py:153-211) as a
function of the workspace state (`agentRunner.py` present?) and the direct
`subprocess.run` outcome.  Note two source subtleties kept faithfully:
the inner `json.loads` is not guarded by its own `except`, so a parse
failure lands in the outer `except Exception` arm (whose log is
`previous_output`, not the extended log); and a parsed marker whose
`success` field is not truthy falls through to the generic
"Failed to execute agentRunner.py" failure. -/
def execute_runner_directly (runnerExists : Bool) (oc : RunOutcome)
    (previous_output : String) : CodeModeResult :=
  if !runnerExists then
    { output := none, execution_log := previous_output, success := false,
      error := some (Json.str "agentRunner.py not found in workspace") }
  else
    match oc with
    | RunOutcome.raised msg =>
      { output := none, execution_log := previous_output, success := false,
        error := some (Json.str ("Failed to execute runner: " ++ msg)) }
    | RunOutcome.completed rc out err =>
      let full_output := previous_output ++ "\n\nDirect execution:\n" ++ out
      if rc == 0 then
        match (findAllResults out).getLast? with
        | some m =>
          match parseJson m with
          | some j =>
            if truthy (lastGet j "success") then
              { output := getPy j "result", execution_log := full_output,
                success := true }
            else
              { output := none, execution_log := full_output ++ "\n" ++ err,
                success := false,
                error := some (Json.str "Failed to execute agentRunner.py") }
          | none =>
            { output := none, execution_log := previous_output,
              success := false,
              error := some (Json.str
                ("Failed to execute runner: " ++ jsonDecodeDetail)) }
        | none =>
          { output := none, execution_log := full_output ++ "\n" ++ err,
            success := false,
            error := some (Json.str "Failed to execute agentRunner.py") }
      else
        { output := none, execution_log := full_output ++ "\n" ++ err,
          success := false,
          error := some (Json.str "Failed to execute agentRunner.py") }

/-- `ClaudeCodeRunner.extract_result` (runner.py:108-151): look for the
marker in `stdout + "\n" + stderr`, classify the LAST captured group, and
defer to the direct-execution fallback only when no group was captured. -/
def extract_result (stdout stderr : String) (runnerExists : Bool)
    (oc : RunOutcome) : CodeModeResult :=
  let full_output := stdout ++ "\n" ++ stderr
  match (findAllResults full_output).getLast? with
  | some m =>
    match parseJson m with
    | some j =>
      if truthy (lastGet j "success") then
        { output := getPy j "result", execution_log := full_output,
          success := true }
      else
        { output := none, execution_log := full_output, success := false,
          error := getOrDefault j "error" "Unknown error" }
    | none =>
      { output := none, execution_log := full_output, success := false,
        error := some (Json.str
          ("Failed to parse result: " ++ jsonDecodeDetail)) }
  | none => execute_runner_directly runnerExists oc full_output

/-- The post-workspace part of `CodeMode.run` (core.py:58-67): launch the
completion agent, then extract; the boolean of the launch triple is ignored
by the source, and the result of `extract_result` is returned as-is. -/
def run_extract (cfg : CodeModeConfig) (po : PrimaryOutcome)
    (runnerExists : Bool) (oc : RunOutcome) : CodeModeResult :=
  let t := execute_with_claude_code cfg po
  extract_result t.2.1 t.2.2 runnerExists oc

/-!
### Tool conversion (`converter.py`) and types (`types.py`)
-/

/-- Rendered default value of a signature parameter, split on the source's
`isinstance(param.default, str)` test: a `str` default is re-quoted with
plain double quotes, anything else is interpolated via `str()` (modelled by
its rendered text). -/
inductive PyDefault where
  | pyStr (s : String)
  | other (rendered : String)

/-- Introspected metadata of one signature parameter
(`inspect.Parameter`): `ann` is the rendered annotation text
(`annotation.__name__` when available, else `str(annotation)` — both are
text, so one field models them), `none` meaning `Parameter.empty`;
`default` is `none` for `Parameter.empty`. -/
structure Param where
  ann : Option String
  default : Option PyDefault

/-- `ToolDefinition` from `types.py`.  The Python `function` field is a
callable; the rendering code consumes it only through `inspect.getsource`
(modelled by `src`, `none` when `getsource` raises `OSError`/`TypeError`),
so the callable's identity is kept as an opaque token `funcId`.
`parameters` is `dict(sig.parameters)` in declaration order.
(The source field name `return_annotation` is shortened to `return_ann`.) -/
structure ToolDefinition where
  name : String
  funcId : Nat
  src : Option String
  description : Option String
  parameters : List (String × Param)
  return_ann : Option String

/-- The reserved context-parameter names skipped by
`generate_function_code` (converter.py:83). -/
def reservedNames : List String := ["ctx", "context", "run_context"]

/-- One rendered parameter fragment (converter.py:86-101):
name, optional `: annotation`, optional `= default`. -/
def renderParam (n : String) (p : Param) : String :=
  let s1 :=
    match p.ann with
    | some a => n ++ ": " ++ a
    | none => n
  match p.default with
  | some (PyDefault.pyStr d) => s1 ++ " = \"" ++ d ++ "\""
  | some (PyDefault.other r) => s1 ++ " = " ++ r
  | none => s1

/-- The stub signature's parameter fragments: reserved context parameters
are skipped first, the rest rendered in declaration order. -/
def stubParams (t : ToolDefinition) : List String :=
  (t.parameters.filter (fun pr => !(reservedNames.contains pr.1))).map
    (fun pr => renderParam pr.1 pr.2)

/-- Python `text.split('\n')`: split at every newline, keeping empty
pieces (structural, so proofs can evaluate it). -/
def splitNlAux : List Char → List Char → List (List Char)
  | [], acc => [acc.reverse]
  | '\n' :: t, acc => acc.reverse :: splitNlAux t []
  | c :: t, acc => splitNlAux t (c :: acc)

/-- Python `line.strip()`: drop whitespace from both ends. -/
def pyStrip (cs : List Char) : List Char :=
  ((cs.dropWhile pyWsChar).reverse.dropWhile pyWsChar).reverse

/-- Python `", ".join(...)`-style joining. -/
def joinWith (sep : String) : List String → String
  | [] => ""
  | [x] => x
  | x :: y :: xs => x ++ sep ++ joinWith sep (y :: xs)

/-- Concatenation of the per-tool chunks accumulated by the `for` loop. -/
def concatAll : List String → String
  | [] => ""
  | x :: xs => x ++ concatAll xs

/-- The stub emitted when the callable's source is unavailable
(converter.py:136-143). -/
def mkStub (t : ToolDefinition) : String :=
  let params_str := joinWith ", " (stubParams t)
  let return_type :=
    match t.return_ann with
    | some r => " -> " ++ r
    | none => ""
  let docstring :=
    match t.description with
    | some d => if d = "" then "" else "    \"\"\"" ++ d ++ "\"\"\"\n"
    | none => ""
  "def " ++ t.name ++ "(" ++ params_str ++ ")" ++ return_type ++ ":\n" ++
    docstring ++
    "    # Tool implementation\n" ++
    "    # This function should be implemented or will be called via the agent\n" ++
    "    pass\n"

/-- Decorator stripping (converter.py:120-132): keep the lines from the
first one whose stripped form starts with `def ` onward. -/
def funcLines (src : String) : List String :=
  ((splitNlAux src.data []).dropWhile
    (fun l => !("def ".data.isPrefixOf (pyStrip l)))).map String.mk

/-- `ToolConverter.generate_function_code` (converter.py:69-143): reproduce
the callable's own source when available (decorators stripped), otherwise
emit the stub with the filtered signature. -/
def generate_function_code (t : ToolDefinition) : String :=
  match t.src with
  | some src =>
    let fl := funcLines src
    if fl.isEmpty then mkStub t else joinWith "\n" fl
  | none => mkStub t

/-- The dependency payload as `serialize_dependencies` discriminates it:
Python `None`, an object with `__dict__` (whose field mapping's `repr` text
is carried), or anything else (its `repr` text). -/
inductive Deps where
  | pyNone
  | withDict (dictRepr : String)
  | plain (reprText : String)

/-- `ToolConverter.serialize_dependencies` (converter.py:145-163). -/
def serialize_dependencies (d : Deps) : String :=
  match d with
  | Deps.pyNone => "dependencies = None"
  | Deps.withDict r => "dependencies = " ++ r
  | Deps.plain r => "dependencies = " ++ r

/-!
### Agent shapes and tool extraction (`converter.py:11-67`)
-/

/-- The introspectable surface of a tool callable: `__name__`, docstring,
signature parameters and return annotation, source text, and an opaque
identity token. -/
structure PyFunc where
  name : String
  doc : Option String
  params : List (String × Param)
  ret_ann : Option String
  src : Option String
  funcId : Nat

/-- A pydantic-ai tool wrapper: `tool.name` and `tool.description` may be
`None` (or empty, which Python `or` also treats as absent). -/
structure ToolWrapper where
  name : Option String
  description : Option String
  func : PyFunc

/-- The `_function_toolset` attribute: itself probed for a `tools`
mapping (`hasattr(agent._function_toolset, 'tools')`). -/
structure Toolset where
  tools : Option (List ToolWrapper)

/-- An agent object as `extract_tools` probes it: each field is `some _`
exactly when the corresponding `hasattr` test succeeds.  Mapping values are
listed in insertion (= registration) order, as Python dict iteration
yields them. -/
structure Agent where
  function_toolset : Option Toolset
  function_tools : Option (List ToolWrapper)
  codemode_tools : Option (List PyFunc)

/-- Python `a or b` on optional strings: `None` and `""` are falsy. -/
def pyOrStr (a : Option String) (b : String) : String :=
  match a with
  | some s => if s = "" then b else s
  | none => b

/-- Python `a or b` where both sides are optional strings. -/
def pyOrOpt (a : Option String) (b : Option String) : Option String :=
  match a with
  | some s => if s = "" then b else some s
  | none => b

/-- Build a `ToolDefinition` from a wrapper (converter.py:29-36 and 44-51):
name falls back to the callable's `__name__`, description to its
docstring. -/
def mkToolDefOf (w : ToolWrapper) : ToolDefinition :=
  { name := pyOrStr w.name w.func.name,
    funcId := w.func.funcId,
    src := w.func.src,
    description := pyOrOpt w.description w.func.doc,
    parameters := w.func.params,
    return_ann := w.func.ret_ann }

/-- Build a `ToolDefinition` from a raw callable (converter.py:55-65). -/
def mkToolDefFromFunc (f : PyFunc) : ToolDefinition :=
  { name := f.name,
    funcId := f.funcId,
    src := f.src,
    description := f.doc,
    parameters := f.params,
    return_ann := f.ret_ann }

/-- The first probe's combined condition:
`hasattr(agent, '_function_toolset') and hasattr(agent._function_toolset, 'tools')`. -/
def toolsetTools (a : Agent) : Option (List ToolWrapper) :=
  match a.function_toolset with
  | some ts => ts.tools
  | none => none

/-- `ToolConverter.extract_tools` (converter.py:11-67): probe the three
shapes in the source's `if`/`elif` order, use the first that matches, and
return `[]` when none does. -/
def extract_tools (a : Agent) : List ToolDefinition :=
  match toolsetTools a with
  | some ws => ws.map mkToolDefOf
  | none =>
    match a.function_tools with
    | some ws => ws.map mkToolDefOf
    | none =>
      match a.codemode_tools with
      | some fs => fs.map mkToolDefFromFunc
      | none => []

/-!
### Program synthesis (`template.py`)
-/

/-- The `# ====...` section bar (76 equal signs). -/
def sectionBar : String := "# " ++ String.mk (List.replicate 76 '=') ++ "\n"

/-- The fixed main-execution block of the generated program
(template.py:62-94).  Literal braces of the embedded Python text are
written with their character codes. -/
def mainBlock : String :=
  "def main():\n" ++
  "    \"\"\"\n" ++
  "    Execute the agent task using the available tools.\n" ++
  "    \n" ++
  "    Your goal is to:\n" ++
  "    1. Use the tools defined above to accomplish the task in PROMPT\n" ++
  "    2. Write code that calls these tools in the right sequence\n" ++
  "    3. Return the final result as a JSON object with a \"result\" key\n" ++
  "    \n" ++
  "    The tools are already defined and ready to use.\n" ++
  "    You have full access to Python's standard library.\n" ++
  "    \n" ++
  "    Example:\n" ++
  "        result = some_tool(param1, param2)\n" ++
  "        processed = another_tool(result)\n" ++
  "        return \x7b\"result\": processed\x7d\n" ++
  "    \"\"\"\n" ++
  "    \n" ++
  "    # TODO: Implement the task logic here\n" ++
  "    # Use the tools defined above to accomplish the task in PROMPT\n" ++
  "    \n" ++
  "    pass\n\n\n" ++
  "if __name__ == \"__main__\":\n" ++
  "    try:\n" ++
  "        result = main()\n" ++
  "        if result is not None:\n" ++
  "            print(\"CODEMODE_RESULT:\", json.dumps(\x7b\"result\": result, \"success\": True\x7d))\n" ++
  "        else:\n" ++
  "            print(\"CODEMODE_RESULT:\", json.dumps(\x7b\"error\": \"No result returned\", \"success\": False\x7d))\n" ++
  "    except Exception as e:\n" ++
  "        print(\"CODEMODE_RESULT:\", json.dumps(\x7b\"error\": str(e), \"success\": False\x7d), file=sys.stderr)\n" ++
  "        sys.exit(1)\n"

/-- `TemplateGenerator.generate_runner` (template.py:11-96): the generated
program text, assembled in the source's fixed order.  The `result_type`
parameter of the source is unused by its body and therefore not modelled. -/
def generate_runner (prompt : String) (tools : List ToolDefinition)
    (deps : Deps) : String :=
  "\"\"\"Generated agent runner for Claude Codemode execution.\"\"\"\n\n" ++
  "import json\nimport sys\nfrom typing import Any\n\n" ++
  sectionBar ++ "# TOOL DEFINITIONS\n" ++ sectionBar ++ "\n" ++
  concatAll (tools.map (fun t => generate_function_code t ++ "\n\n")) ++
  sectionBar ++ "# DEPENDENCIES\n" ++ sectionBar ++ "\n" ++
  serialize_dependencies deps ++ "\n\n" ++
  sectionBar ++ "# TASK\n" ++ sectionBar ++ "\n" ++
  "PROMPT = \"\"\"" ++ prompt ++ "\"\"\"\n\n" ++
  sectionBar ++ "# MAIN EXECUTION\n" ++ sectionBar ++ "\n" ++
  mainBlock

/-!
### Helper notions and lemmas
-/

/-- Contiguous-sublist test: `needle` occurs somewhere in `hay`. -/
def subList (needle : List Char) : List Char → Bool
  | [] => needle.isPrefixOf []
  | hay@(_ :: t) => needle.isPrefixOf hay || subList needle t

/-- `needle` occurs as contiguous text inside `hay`. -/
def containsStr (hay needle : String) : Bool :=
  subList needle.data hay.data

/-- The result value of a success classification comes from the `result`
field of the last captured, parsed, truthy-`success` marker of `src`. -/
def outputFromMarker (src : String) (r : CodeModeResult) : Prop :=
  ∃ m j, (findAllResults src).getLast? = some m ∧ parseJson m = some j ∧
    truthy (lastGet j "success") = true ∧ r.output = getPy j "result"

/-!
### Claim scenario inputs
-/

/-- The C1 scenario blob: two result markers, the first followed by the
`"A"` object, the second by the `"B"` object. -/
def c1_blob : String :=
  "CODEMODE_RESULT: \x7b\"success\": true, \"result\": \"A\"\x7d\nCODEMODE_RESULT: \x7b\"success\": true, \"result\": \"B\"\x7d"

/-- A failure marker carrying an explicit JSON `null` error field. -/
def c2_blob : String := "CODEMODE_RESULT: \x7b\"success\": false, \"error\": null\x7d"

/-- A well-formed success marker blob used to instantiate hypotheses. -/
def c2_success_blob : String := "CODEMODE_RESULT: \x7b\"result\": 5, \"success\": true\x7d"

/-- The C6 scenario blob: a valid marker object followed by a trailing
non-JSON suffix (containing no closing brace) on the same line. -/
def c6_blob : String :=
  "CODEMODE_RESULT: \x7b\"success\": true, \"result\": \"ok\"\x7d garbage"

/-- The same blob with a suffix that does contain a closing brace. -/
def c6_blob_brace : String :=
  "CODEMODE_RESULT: \x7b\"success\": true, \"result\": \"ok\"\x7d garbage\x7d"

/-- A fallback stdout whose marker parses with `success: false` and an
explicit inner error field. -/
def c7_blob : String := "CODEMODE_RESULT: \x7b\"success\": false, \"error\": \"boom\"\x7d"

/-- A callable surface for the C3 witness agent. -/
def c3_func : PyFunc :=
  { name := "add", doc := some "Add.",
    params := [("a", { ann := some "int", default := none }),
               ("b", { ann := some "int", default := none })],
    ret_ann := some "int", src := none, funcId := 1 }

/-- A second callable registered under the LEGACY shape of the witness
agent; priority must ignore it. -/
def c3_func2 : PyFunc :=
  { name := "other", doc := none, params := [], ret_ann := none,
    src := none, funcId := 2 }

/-- A witness agent exposing BOTH the toolset shape and the legacy shape. -/
def c3_agent : Agent :=
  { function_toolset := some
      { tools := some [{ name := some "add", description := none, func := c3_func }] },
    function_tools := some [{ name := some "other", description := none, func := c3_func2 }],
    codemode_tools := none }

/-- A tool whose callable source is available and whose original signature
contains the reserved parameter `ctx`. -/
def c4_tool : ToolDefinition :=
  { name := "f", funcId := 0, src := some "def f(ctx, x):\n    return x",
    description := none,
    parameters := [("ctx", { ann := none, default := none }),
                   ("x", { ann := none, default := none })],
    return_ann := none }

/-- A source-less tool with a reserved `ctx` parameter for the C4 witness. -/
def c4_stub_tool : ToolDefinition :=
  { name := "g", funcId := 0, src := none, description := none,
    parameters := [("ctx", { ann := none, default := none }),
                   ("x", { ann := some "int", default := none })],
    return_ann := none }

/-- Reader for a complete plain double-quoted literal (no escape
processing, matching how the renderer writes string defaults): the content
runs to the first closing quote, which must end the fragment. -/
def readPlainQuoted (s : String) : Option String :=
  match s.data with
  | '"' :: rest =>
    match rest.dropWhile (fun c => c != '"') with
    | ['"'] => some (String.mk (rest.takeWhile (fun c => c != '"')))
    | _ => none
  | _ => none

/-- A one-parameter source-less tool whose default is the string `d`. -/
def c10_tool (d : String) : ToolDefinition :=
  { name := "f", funcId := 0, src := none, description := none,
    parameters := [("x", { ann := none, default := some (PyDefault.pyStr d) })],
    return_ann := none }

/-- Render-relevant equality of tool definitions: all fields agree except
possibly the opaque callable identity `funcId`, which program synthesis
never consumes. -/
def renderEqTool (t u : ToolDefinition) : Prop :=
  t.name = u.name ∧ t.src = u.src ∧ t.description = u.description ∧
  t.parameters = u.parameters ∧ t.return_ann = u.return_ann

/-- A tool for the C8 witness. -/
def c8_t1 : ToolDefinition :=
  { name := "f", funcId := 1, src := none, description := none,
    parameters := [], return_ann := none }

/-- The same tool content under a different callable identity. -/
def c8_t2 : ToolDefinition :=
  { name := "f", funcId := 2, src := none, description := none,
    parameters := [], return_ann := none }

/-- The single stdout line of the UNEDITED generated program when run
directly: `main()` is the stub returning `None`, so the entry point prints
the no-result failure marker (template.py:85-94) and exits 0. -/
def stubMarkerLine : String :=
  "CODEMODE_RESULT: \x7b\"error\": \"No result returned\", \"success\": false\x7d\n"

/-- The all-defaults configuration (`CodeModeConfig()`), for witnesses. -/
def defaultConfig : CodeModeConfig := {}

/-!
### Supporting lemmas
-/

theorem isPrefixOf_append_self (m b : List Char) :
    m.isPrefixOf (m ++ b) = true := by
  induction m with
  | nil => rw [List.nil_append]; cases b <;> rfl
  | cons a t ih => simp [List.isPrefixOf, ih]

theorem subList_self_append (m b : List Char) : subList m (m ++ b) = true := by
  have hp := isPrefixOf_append_self m b
  cases hmb : m ++ b with
  | nil => rw [hmb] at hp; unfold subList; exact hp
  | cons x t => rw [hmb] at hp; simp [subList, hp]

theorem subList_middle (m a b : List Char) :
    subList m (a ++ (m ++ b)) = true := by
  induction a with
  | nil => rw [List.nil_append]; exact subList_self_append m b
  | cons x a' ih => rw [List.cons_append]; simp [subList, ih]

theorem digitChar_ne_brace (n : Nat) : Nat.digitChar n ≠ '\x7b' := by
  by_cases h : n < 16
  · interval_cases n <;> decide
  · have h16 : Nat.digitChar n = '*' := by
      unfold Nat.digitChar
      repeat rw [if_neg (by omega)]
    rw [h16]; decide

theorem toDigitsCore_ne_brace (b : Nat) (fuel : Nat) :
    ∀ (n : Nat) (ds : List Char), (∀ c ∈ ds, c ≠ '\x7b') →
      ∀ c ∈ Nat.toDigitsCore b fuel n ds, c ≠ '\x7b' := by
  induction fuel with
  | zero => intro n ds h c hc; exact h c hc
  | succ f ih =>
    intro n ds h c hc
    unfold Nat.toDigitsCore at hc
    have hcons : ∀ x ∈ Nat.digitChar (n % b) :: ds, x ≠ '\x7b' := by
      intro x hx
      rcases List.mem_cons.mp hx with h1 | h2
      · rw [h1]; exact digitChar_ne_brace _
      · exact h x h2
    by_cases hz : n / b = 0
    · rw [if_pos hz] at hc; exact hcons c hc
    · rw [if_neg hz] at hc; exact ih (n / b) _ hcons c hc

theorem repr_ne_brace (n : Nat) : ∀ c ∈ (Nat.repr n).data, c ≠ '\x7b' := by
  intro c hc
  have hd : (Nat.repr n).data = Nat.toDigitsCore 10 (n + 1) n [] := rfl
  rw [hd] at hc
  exact toDigitsCore_ne_brace 10 (n + 1) n [] (by intro x hx; cases hx) c hc

/-- A blob with no opening brace yields no regex matches: every match needs
a `\x7b` right after the skipped whitespace. -/
theorem findAllAux_eq_nil (fuel : Nat) :
    ∀ s : List Char, (∀ c ∈ s, c ≠ '\x7b') → findAllAux fuel s = [] := by
  induction fuel with
  | zero => intro s _; cases s <;> rfl
  | succ f ih =>
    intro s h
    cases s with
    | nil => rfl
    | cons a t =>
      have ht : ∀ c ∈ t, c ≠ '\x7b' := fun c hc => h c (List.mem_cons_of_mem _ hc)
      have hma : matchAfterMarker ((a :: t).drop markerChars.length) = none := by
        unfold matchAfterMarker
        cases hss : skipSpaces ((a :: t).drop markerChars.length) with
        | nil => rfl
        | cons c u =>
          have hc : c ∈ a :: t := by
            have h1 : c ∈ skipSpaces ((a :: t).drop markerChars.length) := by
              rw [hss]; exact List.mem_cons_self _ _
            have h2 : c ∈ (a :: t).drop markerChars.length :=
              (List.dropWhile_sublist pyWsChar).subset h1
            exact List.drop_subset _ _ h2
          simp [h c hc]
      unfold findAllAux
      rw [hma]
      by_cases hp : markerChars.isPrefixOf (a :: t)
      · simp only [hp, if_true]; exact ih t ht
      · simp only [hp, if_false]; exact ih t ht

/-- Case analysis of the direct-execution fallback: a success result has no
error and takes its output from a truthy-`success` marker of the direct
run's stdout; every failure result has a `None` output and a fixed non-null
error message. -/
theorem erd_spec (re : Bool) (oc : RunOutcome) (prev : String) :
    ((execute_runner_directly re oc prev).success = true →
      (execute_runner_directly re oc prev).error = none ∧
      ∃ rc out err, oc = RunOutcome.completed rc out err ∧
        outputFromMarker out (execute_runner_directly re oc prev)) ∧
    ((execute_runner_directly re oc prev).success = false →
      (execute_runner_directly re oc prev).output = none ∧
      ∃ s, (execute_runner_directly re oc prev).error = some (Json.str s)) := by
  cases re with
  | false => simp [execute_runner_directly]
  | true =>
    cases oc with
    | raised msg => simp [execute_runner_directly]
    | completed rc out err =>
      by_cases hrc : rc == 0
      · cases hm : (findAllResults out).getLast? with
        | none => simp [execute_runner_directly, hrc, hm]
        | some m =>
          cases hj : parseJson m with
          | none => simp [execute_runner_directly, hrc, hm, hj]
          | some j =>
            by_cases ht : truthy (lastGet j "success") = true
            · constructor
              · intro _
                refine ⟨?_, rc, out, err, rfl, m, j, hm, hj, ht, ?_⟩ <;>
                  simp [execute_runner_directly, hrc, hm, hj, ht]
              · intro hfalse
                exfalso
                simp [execute_runner_directly, hrc, hm, hj, ht] at hfalse
            · simp [execute_runner_directly, hrc, hm, hj, ht]
      · simp [execute_runner_directly, hrc]

/-- When the primary combined output captures no marker group,
`extract_result` is exactly the direct-execution fallback. -/
theorem extract_result_no_marker (so se : String) (re : Bool)
    (oc : RunOutcome)
    (h : (findAllResults (so ++ "\n" ++ se)).getLast? = none) :
    extract_result so se re oc = execute_runner_directly re oc (so ++ "\n" ++ se) := by
  simp [extract_result, h]

/-- Branch equation: last marker group parses and its `success` is truthy. -/
theorem extract_result_eq_success (so se : String) (re : Bool)
    (oc : RunOutcome) (m : String) (j : Json)
    (hm : (findAllResults (so ++ "\n" ++ se)).getLast? = some m)
    (hj : parseJson m = some j)
    (ht : truthy (lastGet j "success") = true) :
    extract_result so se re oc =
      { output := getPy j "result", execution_log := so ++ "\n" ++ se,
        success := true, error := none } := by
  simp [extract_result, hm, hj, ht]

/-- Branch equation: last marker group parses, `success` not truthy. -/
theorem extract_result_eq_marker_fail (so se : String) (re : Bool)
    (oc : RunOutcome) (m : String) (j : Json)
    (hm : (findAllResults (so ++ "\n" ++ se)).getLast? = some m)
    (hj : parseJson m = some j)
    (ht : truthy (lastGet j "success") = false) :
    extract_result so se re oc =
      { output := none, execution_log := so ++ "\n" ++ se, success := false,
        error := getOrDefault j "error" "Unknown error" } := by
  simp [extract_result, hm, hj, ht]

/-- Branch equation: last marker group fails to parse. -/
theorem extract_result_eq_parse_fail (so se : String) (re : Bool)
    (oc : RunOutcome) (m : String)
    (hm : (findAllResults (so ++ "\n" ++ se)).getLast? = some m)
    (hj : parseJson m = none) :
    extract_result so se re oc =
      { output := none, execution_log := so ++ "\n" ++ se, success := false,
        error := some (Json.str ("Failed to parse result: " ++ jsonDecodeDetail)) } := by
  simp [extract_result, hm, hj]

/-- Case analysis of `extract_result`: a success result has no error and
takes its output from a truthy-`success` marker (of the primary blob, or of
the fallback run's stdout); a failure result has a `None` output, and its
error can only be `None` when the authoritative marker parsed to an object
whose `error` key holds an explicit JSON `null`. -/
theorem extract_result_cases (so se : String) (re : Bool) (oc : RunOutcome) :
    ((extract_result so se re oc).success = true →
      (extract_result so se re oc).error = none ∧
      (outputFromMarker (so ++ "\n" ++ se) (extract_result so se re oc) ∨
       ∃ rc out err, oc = RunOutcome.completed rc out err ∧
         outputFromMarker out (extract_result so se re oc))) ∧
    ((extract_result so se re oc).success = false →
      (extract_result so se re oc).output = none ∧
      ((extract_result so se re oc).error = none →
        ∃ m j, (findAllResults (so ++ "\n" ++ se)).getLast? = some m ∧
          parseJson m = some j ∧ lastGet j "error" = some Json.null)) := by
  unfold outputFromMarker
  cases hm : (findAllResults (so ++ "\n" ++ se)).getLast? with
  | none =>
    rw [extract_result_no_marker so se re oc hm]
    have hspec := erd_spec re oc (so ++ "\n" ++ se)
    constructor
    · intro hs
      obtain ⟨he, rc, out, err, hoc, hout⟩ := hspec.1 hs
      refine ⟨he, Or.inr ⟨rc, out, err, hoc, hout⟩⟩
    · intro hs
      obtain ⟨ho, s, he⟩ := hspec.2 hs
      exact ⟨ho, fun hnone => absurd (hnone ▸ he) (by simp)⟩
  | some m =>
    cases hj : parseJson m with
    | none =>
      rw [extract_result_eq_parse_fail so se re oc m hm hj]
      constructor
      · intro hs; exact absurd hs (by simp)
      · intro _
        exact ⟨rfl, fun hnone => absurd hnone (by simp)⟩
    | some j =>
      by_cases ht : truthy (lastGet j "success") = true
      · rw [extract_result_eq_success so se re oc m j hm hj ht]
        constructor
        · intro _
          exact ⟨rfl, Or.inl ⟨m, j, rfl, hj, ht, rfl⟩⟩
        · intro hs; exact absurd hs (by simp)
      · have ht' : truthy (lastGet j "success") = false := by
          cases hb : truthy (lastGet j "success") with
          | false => rfl
          | true => exact absurd hb ht
        rw [extract_result_eq_marker_fail so se re oc m j hm hj ht']
        constructor
        · intro hs; exact absurd hs (by simp)
        · intro _
          refine ⟨rfl, fun hnone => ⟨m, j, rfl, hj, ?_⟩⟩
          have h2 : getOrDefault j "error" "Unknown error" = none := hnone
          unfold getOrDefault at h2
          cases hg : lastGet j "error" with
          | none => rw [hg] at h2; exact absurd h2 (by simp)
          | some v =>
            cases v with
            | null => rfl
            | bool b => rw [hg] at h2; exact absurd h2 (by simp)
            | num n => rw [hg] at h2; exact absurd h2 (by simp)
            | str s => rw [hg] at h2; exact absurd h2 (by simp)
            | arr l => rw [hg] at h2; exact absurd h2 (by simp)
            | obj l => rw [hg] at h2; exact absurd h2 (by simp)

/-!
### Claim theorems
-/

/-- Claim C1 (evaluation at the failing input).  The claim says the second
marker's `"B"` wins.  In fact the greedy `(\x7b.*\x7d)` group of the FIRST
match extends to the last closing brace of the whole blob, swallowing the
second marker line: `findall` returns a single capture spanning both
objects, `json.loads` fails on it ("Extra data"), and `extract_result`
returns a parse failure — not a success carrying `"B"`. -/
theorem c1_two_marker_greedy_parse_failure :
    findAllResults (c1_blob ++ "\n" ++ "") =
      ["\x7b\"success\": true, \"result\": \"A\"\x7d\nCODEMODE_RESULT: \x7b\"success\": true, \"result\": \"B\"\x7d"] ∧
    (extract_result c1_blob "" true (RunOutcome.completed 0 "" "")).success = false ∧
    (extract_result c1_blob "" true (RunOutcome.completed 0 "" "")).output = none ∧
    (extract_result c1_blob "" true (RunOutcome.completed 0 "" "")).error =
      some (Json.str ("Failed to parse result: " ++ jsonDecodeDetail)) :=
  ⟨rfl, rfl, rfl, rfl⟩

/-- Claim C2 (counterexample).  `result_data.get("error", "Unknown error")`
returns the stored value even when that value is `None`, so a marker of the
form `\x7b"success": false, "error": null\x7d` produces a failed result
whose `error` is `None` — violating the claimed invariant that
`success == false` implies a present error message. -/
theorem c2_null_error_counterexample :
    (extract_result c2_blob "" true (RunOutcome.completed 0 "" "")).success = false ∧
    (extract_result c2_blob "" true (RunOutcome.completed 0 "" "")).error = none :=
  ⟨rfl, rfl⟩

/-- Claim C2 (amended).  For every input: a success result carries no error
and takes its output from the `result` field of the authoritative marker
(of the primary blob or of the fallback run's stdout); a failure result
carries a non-`None` error EXCEPT when the authoritative marker parsed to
an object whose `error` key holds an explicit JSON `null`, in which case
the error is `None`. -/
theorem c2_result_invariant_amended (so se : String) (re : Bool) (oc : RunOutcome) :
    ((extract_result so se re oc).success = true →
      (extract_result so se re oc).error = none ∧
      (outputFromMarker (so ++ "\n" ++ se) (extract_result so se re oc) ∨
       ∃ rc out err, oc = RunOutcome.completed rc out err ∧
         outputFromMarker out (extract_result so se re oc))) ∧
    ((extract_result so se re oc).success = false →
      (extract_result so se re oc).error = none →
      ∃ m j, (findAllResults (so ++ "\n" ++ se)).getLast? = some m ∧
        parseJson m = some j ∧ lastGet j "error" = some Json.null) :=
  ⟨fun hs => (extract_result_cases so se re oc).1 hs,
   fun hs => ((extract_result_cases so se re oc).2 hs).2⟩

/-- Witness for C2: at the concrete success blob the amended invariant
yields `error = none`. -/
theorem c2_result_invariant_witness :
    (extract_result c2_success_blob "" true (RunOutcome.completed 0 "" "")).error = none :=
  ((c2_result_invariant_amended c2_success_blob "" true
      (RunOutcome.completed 0 "" "")).1 rfl).1

/-- Claim C6 (counterexample).  The claim says this input is classified as a
parse failure.  In fact the greedy match backtracks to the LAST closing
brace of the blob, which — the suffix ` garbage` containing none — is the
object's own closing brace: the capture is exactly the valid object and
extraction succeeds with output `"ok"`. -/
theorem c6_trailing_garbage_success :
    (extract_result c6_blob "" true (RunOutcome.completed 0 "" "")).success = true ∧
    (extract_result c6_blob "" true (RunOutcome.completed 0 "" "")).output =
      some (Json.str "ok") :=
  ⟨rfl, rfl⟩

/-- Claim C6 (amended).  The greedy capture runs to the last `\x7d` of the
blob: a trailing suffix with no closing brace is tolerated (the capture
stops at the object's own closing brace and extraction succeeds), while a
suffix containing a closing brace widens the capture past the object and
extraction becomes a parse failure. -/
theorem c6_greedy_boundary_amended :
    (extract_result c6_blob "" true (RunOutcome.completed 0 "" "")).success = true ∧
    (extract_result c6_blob "" true (RunOutcome.completed 0 "" "")).output =
      some (Json.str "ok") ∧
    (extract_result c6_blob_brace "" true (RunOutcome.completed 0 "" "")).success = false ∧
    (extract_result c6_blob_brace "" true (RunOutcome.completed 0 "" "")).error =
      some (Json.str ("Failed to parse result: " ++ jsonDecodeDetail)) :=
  ⟨rfl, rfl, rfl, rfl⟩

/-- Claim C9.  For both result extraction and the fallback path: a failure
result always has `output = None`, and a success result's output comes from
the `result` field of the authoritative parsed marker (primary blob or
fallback stdout respectively). -/
theorem c9_output_invariant :
    (∀ so se re oc,
      ((extract_result so se re oc).success = false →
        (extract_result so se re oc).output = none) ∧
      ((extract_result so se re oc).success = true →
        outputFromMarker (so ++ "\n" ++ se) (extract_result so se re oc) ∨
        ∃ rc out err, oc = RunOutcome.completed rc out err ∧
          outputFromMarker out (extract_result so se re oc))) ∧
    (∀ re oc prev,
      ((execute_runner_directly re oc prev).success = false →
        (execute_runner_directly re oc prev).output = none) ∧
      ((execute_runner_directly re oc prev).success = true →
        ∃ rc out err, oc = RunOutcome.completed rc out err ∧
          outputFromMarker out (execute_runner_directly re oc prev))) :=
  ⟨fun so se re oc =>
    ⟨fun hs => ((extract_result_cases so se re oc).2 hs).1,
     fun hs => ((extract_result_cases so se re oc).1 hs).2⟩,
   fun re oc prev =>
    ⟨fun hs => ((erd_spec re oc prev).2 hs).1,
     fun hs => ((erd_spec re oc prev).1 hs).2⟩⟩

/-- Witness for C9: at the concrete explicit-failure blob the invariant
yields `output = none`. -/
theorem c9_output_invariant_witness :
    (extract_result c2_blob "" true (RunOutcome.completed 0 "" "")).output = none :=
  (c9_output_invariant.1 c2_blob "" true (RunOutcome.completed 0 "" "")).1 rfl

/-- Claim C7.  On the fallback path, when the direct run's stdout carries a
marker whose JSON parses but whose `success` field is absent or falsy, the
result is the single generic "Failed to execute agentRunner.py" failure —
in particular the parsed object's own `error` field (the `j` here is
arbitrary) never reaches the caller. -/
theorem c7_fallback_generic_error (prev out err : String) (m : String) (j : Json)
    (hm : (findAllResults out).getLast? = some m)
    (hj : parseJson m = some j)
    (ht : truthy (lastGet j "success") = false) :
    (execute_runner_directly true (RunOutcome.completed 0 out err) prev).success = false ∧
    (execute_runner_directly true (RunOutcome.completed 0 out err) prev).error =
      some (Json.str "Failed to execute agentRunner.py") := by
  constructor <;> simp [execute_runner_directly, hm, hj, ht]

/-- Witness for C7: the inner `"boom"` error of the concrete blob is
replaced by the generic message. -/
theorem c7_fallback_generic_error_witness :
    (execute_runner_directly true (RunOutcome.completed 0 c7_blob "") "prev").error =
      some (Json.str "Failed to execute agentRunner.py") :=
  (c7_fallback_generic_error "prev" c7_blob ""
    "\x7b\"success\": false, \"error\": \"boom\"\x7d"
    (Json.obj [("success", Json.bool false), ("error", Json.str "boom")])
    rfl rfl rfl).2

/-- Claim C3.  `extract_tools` probes the three shapes in fixed priority
order: the function-toolset mapping wins over everything; the legacy flat
mapping is used only when the first probe fails; the plain callable
sequence only when both fail; and with no matching shape the result is `[]`
(the embedding is a total function — no error path exists).  In each case
the result is the per-item image of the registered list, preserving
registration order. -/
theorem c3_extract_tools_priority (a : Agent) :
    (∀ ws, toolsetTools a = some ws → extract_tools a = ws.map mkToolDefOf) ∧
    (toolsetTools a = none → ∀ ws, a.function_tools = some ws →
      extract_tools a = ws.map mkToolDefOf) ∧
    (toolsetTools a = none → a.function_tools = none → ∀ fs,
      a.codemode_tools = some fs → extract_tools a = fs.map mkToolDefFromFunc) ∧
    (toolsetTools a = none → a.function_tools = none → a.codemode_tools = none →
      extract_tools a = []) := by
  refine ⟨?_, ?_, ?_, ?_⟩ <;> intros <;> simp [extract_tools, *]

/-- Witness for C3: on the concrete two-shape agent, extraction uses the
first matching shape only. -/
theorem c3_extract_tools_witness :
    extract_tools c3_agent =
      [{ name := "add", funcId := 1, src := none, description := some "Add.",
         parameters := [("a", { ann := some "int", default := none }),
                        ("b", { ann := some "int", default := none })],
         return_ann := some "int" }] := by
  rw [(c3_extract_tools_priority c3_agent).1
    [{ name := some "add", description := none, func := c3_func }] rfl]
  rfl

/-- Claim C4 (counterexample).  When `inspect.getsource` succeeds,
`generate_function_code` reproduces the original source verbatim (minus
decorators) — including the reserved `ctx` in the emitted parameter list.
The reserved-name filter runs only on the stub path. -/
theorem c4_source_path_keeps_ctx :
    generate_function_code c4_tool = "def f(ctx, x):\n    return x" ∧
    containsStr (generate_function_code c4_tool) "def f(ctx" = true :=
  ⟨rfl, rfl⟩

/-- Claim C4 (amended).  On the stub path (callable source unavailable),
every rendered parameter fragment of the synthesized signature comes from a
non-reserved parameter: `ctx`, `context` and `run_context` are omitted. -/
theorem c4_stub_omits_reserved (t : ToolDefinition) (h : t.src = none) :
    generate_function_code t = mkStub t ∧
    ∀ frag ∈ stubParams t, ∃ pr, pr ∈ t.parameters ∧
      reservedNames.contains pr.1 = false ∧ frag = renderParam pr.1 pr.2 := by
  constructor
  · simp [generate_function_code, h]
  · intro frag hf
    unfold stubParams at hf
    rcases List.mem_map.mp hf with ⟨pr, hmem, hrend⟩
    rcases List.mem_filter.mp hmem with ⟨hmem2, hpred⟩
    refine ⟨pr, hmem2, ?_, hrend.symm⟩
    cases hc : reservedNames.contains pr.1 with
    | false => rfl
    | true => rw [hc] at hpred; exact absurd hpred (by decide)

/-- Witness for C4: the concrete source-less tool renders as the stub and
its parameter list drops `ctx`, keeping only `x: int`. -/
theorem c4_stub_omits_reserved_witness :
    generate_function_code c4_stub_tool = mkStub c4_stub_tool ∧
    stubParams c4_stub_tool = ["x: int"] :=
  ⟨(c4_stub_omits_reserved c4_stub_tool rfl).1, rfl⟩

/-- Claim C10.  String defaults are wrapped in plain double quotes with no
escaping (for every `d` the fragment is literally `x = "` ++ d ++ `"`);
consequently for `d` containing a double quote — here `a"b` — the emitted
fragment `"a"b"` is not a valid quoted literal denoting `d`. -/
theorem c10_string_default_unescaped :
    (∀ d : String,
      renderParam "x" { ann := none, default := some (PyDefault.pyStr d) } =
        "x" ++ " = \"" ++ d ++ "\"") ∧
    generate_function_code (c10_tool "a\"b") =
      "def f(x = \"a\"b\"):\n    # Tool implementation\n    # This function should be implemented or will be called via the agent\n    pass\n" ∧
    readPlainQuoted "\"a\"b\"" ≠ some "a\"b" := by
  refine ⟨fun d => rfl, rfl, ?_⟩
  decide

theorem gfc_congr (t u : ToolDefinition) (h : renderEqTool t u) :
    generate_function_code t = generate_function_code u := by
  obtain ⟨h1, h2, h3, h4, h5⟩ := h
  cases t
  cases u
  simp only at h1 h2 h3 h4 h5
  subst h1; subst h2; subst h3; subst h4; subst h5
  rfl

/-- Claim C8.  Program synthesis is a pure function of the prompt, the
dependency payload and the render-relevant content of the tool list: two
invocations on render-equal tool lists (in particular, on the SAME inputs)
produce byte-identical program text — the opaque callable identities are
never consulted. -/
theorem c8_generate_runner_deterministic (p : String) (d : Deps)
    (ts us : List ToolDefinition) (h : List.Forall₂ renderEqTool ts us) :
    generate_runner p ts d = generate_runner p us d := by
  have hmap : ts.map (fun t => generate_function_code t ++ "\n\n") =
      us.map (fun t => generate_function_code t ++ "\n\n") := by
    induction h with
    | nil => rfl
    | cons hab _ ih => simp only [List.map, ih, gfc_congr _ _ hab]
  simp only [generate_runner, hmap]

/-- Witness for C8: concrete render-equal tool lists give byte-identical
generated programs. -/
theorem c8_generate_runner_deterministic_witness :
    generate_runner "p" [c8_t1] Deps.pyNone = generate_runner "p" [c8_t2] Deps.pyNone :=
  c8_generate_runner_deterministic "p" Deps.pyNone [c8_t1] [c8_t2]
    (List.Forall₂.cons ⟨rfl, rfl, rfl, rfl, rfl⟩ List.Forall₂.nil)

theorem subList_nil_left (t : List Char) : subList [] t = true := by
  cases t with
  | nil => rfl
  | cons x xs => simp [subList, List.isPrefixOf]

theorem isPrefixOf_ext (p : List Char) :
    ∀ (l t : List Char), p.isPrefixOf l = true → p.isPrefixOf (l ++ t) = true := by
  induction p with
  | nil => intro l t _; rw [show ([] : List Char).isPrefixOf (l ++ t) = true from by cases l ++ t <;> rfl]
  | cons a p' ih =>
    intro l t h
    cases l with
    | nil => exact absurd h (by simp [List.isPrefixOf])
    | cons b l' =>
      rw [List.cons_append]
      simp only [List.isPrefixOf, Bool.and_eq_true] at h ⊢
      exact ⟨h.1, ih l' t h.2⟩

theorem subList_ext_right (m : List Char) :
    ∀ (h t : List Char), subList m h = true → subList m (h ++ t) = true := by
  intro h
  induction h with
  | nil =>
    intro t hs
    unfold subList at hs
    cases m with
    | nil => rw [List.nil_append]; exact subList_nil_left t
    | cons a as => exact absurd hs (by simp [List.isPrefixOf])
  | cons a h' ih =>
    intro t hs
    rw [List.cons_append]
    unfold subList at hs ⊢
    simp only [Bool.or_eq_true] at hs
    rcases hs with h1 | h2
    · have h3 := isPrefixOf_ext m (a :: h') t h1
      rw [List.cons_append] at h3
      simp [h3]
    · simp [ih t h2]

theorem subList_cons_of (m t : List Char) (x : Char)
    (h : subList m t = true) : subList m (x :: t) = true := by
  unfold subList
  rw [h, Bool.or_true]

/-- Claim C5 (counterexample).  The claim says the returned result's
message contains the configured timeout value.  At the default
configuration (timeout 300), the timeout scenario's returned result has
`success = false` but its error message is the generic fallback failure,
which contains neither the rendered timeout value `300` nor the timeout
message: the timeout text survives only in the captured `execution_log`,
never in the result's error message. -/
theorem c5_error_lacks_timeout_counterexample :
    (run_extract defaultConfig PrimaryOutcome.timedOut true
        (RunOutcome.completed 0 stubMarkerLine "")).success = false ∧
    (run_extract defaultConfig PrimaryOutcome.timedOut true
        (RunOutcome.completed 0 stubMarkerLine "")).error =
      some (Json.str "Failed to execute agentRunner.py") ∧
    containsStr "Failed to execute agentRunner.py"
      (Nat.repr defaultConfig.timeout) = false ∧
    containsStr "Failed to execute agentRunner.py"
      (timeoutMsg defaultConfig.timeout) = false :=
  ⟨rfl, rfl, by decide, by decide⟩

/-- Claim C5 (amended).  When the primary completion-agent invocation
times out and the workspace still holds the unedited generated program
(whose direct fallback run prints the no-result failure marker and exits
0), the pipeline returns a structured failure — no exception escapes, the
embedding being a total function.  Its ERROR field is the generic
fallback message "Failed to execute agentRunner.py" (the timeout value
does not reach it); the timeout message with the configured value is
preserved in the result's captured `execution_log`. -/
theorem c5_timeout_reported (cfg : CodeModeConfig) :
    (run_extract cfg PrimaryOutcome.timedOut true
        (RunOutcome.completed 0 stubMarkerLine "")).success = false ∧
    (run_extract cfg PrimaryOutcome.timedOut true
        (RunOutcome.completed 0 stubMarkerLine "")).error =
      some (Json.str "Failed to execute agentRunner.py") ∧
    containsStr (run_extract cfg PrimaryOutcome.timedOut true
        (RunOutcome.completed 0 stubMarkerLine "")).execution_log
      (timeoutMsg cfg.timeout) = true := by
  have hnb : ∀ c ∈ ("" ++ "\n" ++ timeoutMsg cfg.timeout).data, c ≠ '\x7b' := by
    intro c hc
    have hd : ("" ++ "\n" ++ timeoutMsg cfg.timeout).data =
        '\n' :: (("Execution timed out after ".data ++ (Nat.repr cfg.timeout).data) ++
          " seconds".data) := rfl
    rw [hd] at hc
    rcases List.mem_cons.mp hc with h1 | h2
    · rw [h1]; decide
    · rcases List.mem_append.mp h2 with h3 | h4
      · rcases List.mem_append.mp h3 with h5 | h6
        · exact (by decide : ∀ x ∈ "Execution timed out after ".data, x ≠ '\x7b') c h5
        · exact repr_ne_brace cfg.timeout c h6
      · exact (by decide : ∀ x ∈ " seconds".data, x ≠ '\x7b') c h4
  have hfa : (findAllResults ("" ++ "\n" ++ timeoutMsg cfg.timeout)).getLast? = none := by
    unfold findAllResults
    rw [findAllAux_eq_nil _ _ hnb]
    rfl
  have hres : run_extract cfg PrimaryOutcome.timedOut true
      (RunOutcome.completed 0 stubMarkerLine "") =
      execute_runner_directly true (RunOutcome.completed 0 stubMarkerLine "")
        ("" ++ "\n" ++ timeoutMsg cfg.timeout) :=
    extract_result_no_marker "" (timeoutMsg cfg.timeout) true
      (RunOutcome.completed 0 stubMarkerLine "") hfa
  have herd : execute_runner_directly true (RunOutcome.completed 0 stubMarkerLine "")
      ("" ++ "\n" ++ timeoutMsg cfg.timeout) =
      { output := none,
        execution_log := ("" ++ "\n" ++ timeoutMsg cfg.timeout) ++
          "\n\nDirect execution:\n" ++ stubMarkerLine ++ "\n" ++ "",
        success := false,
        error := some (Json.str "Failed to execute agentRunner.py") } := rfl
  rw [hres, herd]
  refine ⟨rfl, rfl, ?_⟩
  have hshape : (("" ++ "\n" ++ timeoutMsg cfg.timeout) ++
      "\n\nDirect execution:\n" ++ stubMarkerLine ++ "\n" ++ "").data =
      '\n' :: (((((timeoutMsg cfg.timeout).data ++ "\n\nDirect execution:\n".data) ++
        stubMarkerLine.data) ++ "\n".data) ++ "".data) := rfl
  show subList (timeoutMsg cfg.timeout).data _ = true
  rw [hshape]
  have h1 : subList (timeoutMsg cfg.timeout).data
      ((timeoutMsg cfg.timeout).data ++ "\n\nDirect execution:\n".data) = true :=
    subList_self_append _ _
  have h2 := subList_ext_right _ _ stubMarkerLine.data h1
  have h3 := subList_ext_right _ _ "\n".data h2
  have h4 := subList_ext_right _ _ "".data h3
  exact subList_cons_of _ _ _ h4

/-- Witness for C5: with the default configuration (timeout 300), the
timeout scenario yields a failure result. -/
theorem c5_timeout_reported_witness :
    (run_extract defaultConfig PrimaryOutcome.timedOut true
        (RunOutcome.completed 0 stubMarkerLine "")).success = false :=
  (c5_timeout_reported defaultConfig).1

/-- Witness for C10: the rendering fact instantiated at a concrete default. -/
theorem c10_string_default_unescaped_witness :
    renderParam "x" { ann := none, default := some (PyDefault.pyStr "abc") } =
      "x" ++ " = \"" ++ "abc" ++ "\"" :=
  c10_string_default_unescaped.1 "abc"
